import Mathlib

/-!
Verification development for a retrieval-augmented chatbot
(FastAPI application in `app/`).  The Python sources are shallowly
embedded: Python strings become `List Char`, numpy float vectors become
`List ℤ` (exact arithmetic idealising float32), the FAISS `IndexFlatL2`
becomes the list of stored vectors together with exhaustive squared-L2
nearest-neighbour search, and the filesystem becomes a map from paths to
artifact contents.  Each definition carries a comment naming the source
function it embeds.
-/

/-- Python strings, modelled as lists of characters (code points). -/
abbrev Str := List Char

/-- Embedding vectors (numpy arrays of floats in the source, idealised to
exact integer components; all claims here are insensitive to the numeric
field). -/
abbrev Vec := List ℤ

/-- Metadata dictionaries (`Dict` in the source), as association lists. -/
abbrev Meta := List (Str × Str)

/-- Python `str.strip()`: remove leading and trailing whitespace. -/
def strTrim (s : Str) : Str :=
  ((s.dropWhile Char.isWhitespace).reverse.dropWhile Char.isWhitespace).reverse

/-- Python `str.lower()`. -/
def strLower (s : Str) : Str := s.map Char.toLower

/-- Decimal rendering of a natural number (for the Python f-string
interpolations of counters in messages). -/
def natStrAux : Nat → Nat → Str
  | 0, _ => []
  | fuel + 1, n =>
    if n < 10 then [Char.ofNat (48 + n)]
    else natStrAux fuel (n / 10) ++ [Char.ofNat (48 + n % 10)]

/-- Decimal rendering entry point. -/
def natStr (n : Nat) : Str := natStrAux (n + 1) n

/-- The apostrophe character, kept out of string literals. -/
def apos : Char := Char.ofNat 39

/-- Squared L2 (Euclidean) distance, the quantity FAISS `IndexFlatL2`
computes and orders by (`vector_store.py`, search).  Ordering by squared L2
equals ordering by L2. -/
def dist2 (q v : Vec) : ℤ :=
  ((q.zip v).map (fun p => (p.1 - p.2) * (p.1 - p.2))).sum

/-- `VectorStore.__init__` state (`app/services/vector_store.py` lines 7-14).
`dimension` is the constructor argument; `indexDim` is the dimension of the
currently held FAISS index (they coincide until a `load` replaces the
index); `vecs` is the content of the FAISS index (`index.ntotal` vectors);
`chunks` and `metadata` are the parallel Python lists.  `document_id` is
set in `__init__` and never read elsewhere. -/
structure VectorStore where
  dimension : Nat
  indexDim : Nat
  vecs : List Vec
  chunks : List Str
  metadata : List Meta
  document_id : Option Str

/-- `VectorStore(dimension)`: fresh empty index. -/
def VectorStore.init (d : Nat) : VectorStore := ⟨d, d, [], [], [], none⟩

/-- Number of vectors held by the FAISS index (`self.index.ntotal`). -/
def VectorStore.ntotal (s : VectorStore) : Nat := s.vecs.length

/-- `VectorStore.add_documents` (lines 16-30).  Raises `ValueError` when the
embedding count differs from the chunk count; the FAISS `add` asserts that
every vector has the index dimension.  On success appends embeddings,
chunks, and one copy of `doc_metadata or {}` per chunk.  A raise leaves the
store unmodified (both checks precede any mutation). -/
def VectorStore.add_documents (s : VectorStore) (chunks : List Str)
    (embeddings : List Vec) (doc_metadata : Option Meta) :
    Except Str VectorStore :=
  if embeddings.length ≠ chunks.length then
    .error "Number of embeddings must match number of chunks".toList
  else if embeddings.any (fun v => v.length ≠ s.indexDim) then
    .error "faiss assertion failed: vector dimension differs from index dimension".toList
  else
    .ok { s with
          vecs := s.vecs ++ embeddings,
          chunks := s.chunks ++ chunks,
          metadata := s.metadata ++ chunks.map (fun _ => doc_metadata.getD []) }

/-- Comparison used to model FAISS returning neighbours by ascending
distance: order the (index, distance) pairs by distance. -/
def distLE (a b : Nat × ℤ) : Prop := a.2 ≤ b.2

instance : DecidableRel distLE := fun a b => inferInstanceAs (Decidable (a.2 ≤ b.2))

instance : IsTotal (Nat × ℤ) distLE := ⟨fun a b => Int.le_total a.2 b.2⟩

instance : IsTrans (Nat × ℤ) distLE := ⟨fun _ _ _ h1 h2 => le_trans h1 h2⟩

/-- The (index, squared-distance) table FAISS scores for a query:
one entry per stored vector. -/
def searchKey (q : Vec) (s : VectorStore) : List (Nat × ℤ) :=
  (List.range s.vecs.length).map (fun i => (i, dist2 q (s.vecs.getD i [])))

/-- `VectorStore.search` (lines 32-53).  Empty index returns `[]`;
otherwise `k` is clamped to `ntotal`, FAISS returns the clamped number of
nearest stored vectors by ascending (squared) L2 distance, and the loop
keeps entries whose index is below `len(self.chunks)` and pairs each with
its chunk text and metadata. -/
def VectorStore.search (s : VectorStore) (query_embedding : Vec) (k : Nat) :
    List (Str × ℤ × Meta) :=
  if s.vecs.length = 0 then []
  else
    let kk := min k s.vecs.length
    let sorted := List.insertionSort distLE (searchKey query_embedding s)
    let top := (sorted.take kk).filter (fun p => decide (p.1 < s.chunks.length))
    top.map (fun p => (s.chunks.getD p.1 [], p.2, s.metadata.getD p.1 []))

/-- `VectorStore.clear` (lines 96-100): fresh FAISS index of the
constructed dimension, empty chunk and metadata lists; nothing else is
touched. -/
def VectorStore.clear (s : VectorStore) : VectorStore :=
  { s with indexDim := s.dimension, vecs := [], chunks := [], metadata := [] }

/-- On-disk artifact contents.  `truncated` models a file that has been
opened for writing (hence truncated) whose content is not yet completely
written: reading it back fails. -/
inductive Artifact where
  | indexFile (d : Nat) (vecs : List Vec)
  | dataFile (chunks : List Str) (metadata : Option (List Meta))
  | truncated
deriving DecidableEq

/-- The filesystem: a map from paths to artifact contents. -/
def FS : Type := Str → Option Artifact

/-- Write (or overwrite) one path. -/
def fsUpdate (fs : FS) (p : Str) (a : Artifact) : FS :=
  fun q => if q = p then some a else fs q

/-- `os.path.join(path, f"{store_id}_index.faiss")`. -/
def indexPathOf (path store_id : Str) : Str :=
  path ++ "/".toList ++ store_id ++ "_index.faiss".toList

/-- `os.path.join(path, f"{store_id}_data.pkl")`. -/
def dataPathOf (path store_id : Str) : Str :=
  path ++ "/".toList ++ store_id ++ "_data.pkl".toList

/-- The elementary filesystem writes performed by `VectorStore.save`
(lines 55-69), in order: `faiss.write_index` truncates then fills the
index artifact in place, and `open(data_path, 'wb')` followed by
`pickle.dump` truncates then fills the data artifact in place.  No
temporary file or rename is involved. -/
def saveWrites (s : VectorStore) (path store_id : Str) : List (Str × Artifact) :=
  [ (indexPathOf path store_id, .truncated),
    (indexPathOf path store_id, .indexFile s.indexDim s.vecs),
    (dataPathOf path store_id, .truncated),
    (dataPathOf path store_id, .dataFile s.chunks (some s.metadata)) ]

/-- Apply a list of writes in order. -/
def applyWrites (fs : FS) (ws : List (Str × Artifact)) : FS :=
  ws.foldl (fun f w => fsUpdate f w.1 w.2) fs

/-- `VectorStore.save`: all writes complete. -/
def VectorStore.save (s : VectorStore) (path store_id : Str) (fs : FS) : FS :=
  applyWrites fs (saveWrites s path store_id)

/-- A save interrupted after its first `n` elementary writes (crash
mid-save). -/
def saveInterruptedAfter (s : VectorStore) (path store_id : Str) (fs : FS)
    (n : Nat) : FS :=
  applyWrites fs ((saveWrites s path store_id).take n)

/-- `VectorStore.load` (lines 71-88).  If either artifact is absent,
returns `False` leaving the store unchanged; otherwise reads both (a
truncated or wrong-typed file makes `faiss.read_index`/`pickle.load`
raise), replaces the index and the chunk list, reads metadata with
`data.get('metadata', [])`, and returns `True`. -/
def VectorStore.load (s : VectorStore) (path store_id : Str) (fs : FS) :
    Except Str (VectorStore × Bool) :=
  match fs (indexPathOf path store_id), fs (dataPathOf path store_id) with
  | none, _ => .ok (s, false)
  | some _, none => .ok (s, false)
  | some (.indexFile d vs), some (.dataFile cs md) =>
      .ok ({ s with
             indexDim := d,
             vecs := vs,
             chunks := cs,
             metadata := md.getD [] }, true)
  | some _, some _ => .error "failed to read artifact".toList

/-- `VectorStore.exists` (lines 90-94): both artifact paths present. -/
def VectorStore.existsOn (path store_id : Str) (fs : FS) : Bool :=
  (fs (indexPathOf path store_id)).isSome && (fs (dataPathOf path store_id)).isSome

/-- `TextChunker.chunk_text` (`app/services/chunker.py` lines 13-21),
parameterised by the library splitter `self.splitter.split_text` (the
`RecursiveCharacterTextSplitter` is external to this repository): empty or
whitespace-only input yields `[]`; otherwise the splitter output is
filtered by `len(chunk.strip()) > 50`. -/
def chunk_text (split : Str → List Str) (text : Str) : List Str :=
  if (strTrim text).length = 0 then []
  else (split text).filter (fun c => decide (50 < (strTrim c).length))

/-- One conversation message (`app/models.py`). -/
structure Msg where
  role : Str
  content : Str
deriving DecidableEq

/-- The parsed JSON object the clarity-check backend call yields
(`llm.py`, check_query_clarity): either key may be absent. -/
structure ClarityJson where
  is_clear : Option Bool
  suggested_clarification : Option Str
deriving DecidableEq

/-- `LLMService.check_query_clarity` (`app/services/llm.py` lines 10-51),
with the generation-backend call plus JSON parsing abstracted to
`backend : Option ClarityJson` (`none` models any exception inside the
`try`, which the bare `except: pass` swallows).  With non-empty history,
or a trimmed question of length at least 10, the backend is never invoked
and the result is clear.  `result.get("is_clear", True)` defaults to
clear; when it is `false` the suggested clarification (possibly absent) is
returned. -/
def check_query_clarity (question : Str) (conversation_history : List Msg)
    (backend : Option ClarityJson) : Bool × Option Str :=
  if conversation_history.length ≠ 0 then (true, none)
  else if (strTrim question).length < 10 then
    match backend with
    | none => (true, none)
    | some r =>
        if r.is_clear.getD true = false then (false, r.suggested_clarification)
        else (true, none)
  else (true, none)

/-- Decidable equality for endpoint results. -/
instance exceptDecEq {ε α : Type} [DecidableEq ε] [DecidableEq α] :
    DecidableEq (Except ε α) := fun
  | .ok a, .ok b => decidable_of_iff (a = b) (by simp)
  | .ok _, .error _ => isFalse (by simp)
  | .error _, .ok _ => isFalse (by simp)
  | .error e, .error f => decidable_of_iff (e = f) (by simp)

/-- HTTP-level failures (`fastapi.HTTPException`): status code and detail.
Starlette renders `str(e)` as `f"{status_code}: {detail}"`. -/
inductive HErr where
  | httpErr (statusCode : Nat) (detail : Str)
deriving DecidableEq

/-- `str(e)` for an `HTTPException`. -/
def errStr : HErr → Str
  | .httpErr c d => natStr c ++ ": ".toList ++ d

/-- `app/models.py` ChatResponse. -/
structure ChatResponse where
  answer : Str
  sources : List Str
  is_clarification : Bool
  rephrased_query : Option Str
  warnings : Option (List Str)
deriving DecidableEq

/-- The canned no-results answer of `chat` step 5 (`app/main.py` line
435). -/
def noResultsAnswer : Str :=
  "I couldn".toList ++ [apos] ++
  "t find any relevant information in the indexed documents to answer your question. Could you please rephrase or ask about something else?".toList

/-- The 404 detail when the store has not been populated (`app/main.py`
lines 421-425). -/
def notIndexedDetail : Str :=
  "No documents indexed. Please use /index-all to index your folder first.".toList

/-- One source citation line of `chat` step 6:
`f"📄 {doc_name}: {chunk[:100]}..."` with
`metadata.get('doc_name', 'Unknown Document')`. -/
def sourceLine (r : Str × ℤ × Meta) : Str :=
  "📄 ".toList ++ ((r.2.2.lookup "doc_name".toList).getD "Unknown Document".toList) ++
  ": ".toList ++ r.1.take 100 ++ "...".toList

/-- The collaborators and configuration the `chat` endpoint consults,
abstracted: the clarity backend outcome, the value
`llm_service.rephrase_query` returns when invoked (on backend failure that
function returns the original question), the embedder
`embedding_engine.encode_single`, the answer generator
`llm_service.generate_answer`, the persisted filesystem, and settings. -/
structure ChatDeps where
  clarity : Option ClarityJson
  rephraseReply : Str
  encode : Str → Vec
  gen : List Str → Str → List Msg → Str
  fs : FS
  storePath : Str
  dim : Nat
  topK : Nat

/-- Steps 2-7 of the `chat` endpoint (`app/main.py` lines 406-462): query
rephrasing when history is non-empty (used only when non-empty and
different from the original, comparing lowercased), loading the unified
store (404 when absent), embedding the search query, retrieval, the canned
empty-result response, source lines, and answer generation from the
original question plus history. -/
def chatAfterClarity (question : Str) (history : List Msg) (deps : ChatDeps) :
    Except HErr ChatResponse :=
  let rqsq : Option Str × Str :=
    if history.length ≠ 0 then
      if deps.rephraseReply.length ≠ 0 ∧
          strLower deps.rephraseReply ≠ strLower question then
        (some deps.rephraseReply, deps.rephraseReply)
      else (none, question)
    else (none, question)
  match VectorStore.load (VectorStore.init deps.dim) deps.storePath
      "all_docs".toList deps.fs with
  | .ok (_, false) => .error (.httpErr 404 notIndexedDetail)
  | .error m => .error (.httpErr 500 m)
  | .ok (store, true) =>
      let results := store.search (deps.encode rqsq.2) deps.topK
      if results.length = 0 then
        .ok ⟨noResultsAnswer, [], false, rqsq.1, none⟩
      else
        .ok ⟨deps.gen (results.map (fun r => r.1)) question history,
             results.map sourceLine, false, rqsq.1, none⟩

/-- The `chat` endpoint (`app/main.py` lines 380-462).  Step 1: the
clarity check; the short-circuit happens only under
`if not is_clear and clarification:` (Python truthiness: a present,
non-empty clarification string). -/
def chat (question : Str) (history : List Msg) (deps : ChatDeps) :
    Except HErr ChatResponse :=
  match check_query_clarity question history deps.clarity with
  | (false, some c) =>
      if c.length ≠ 0 then .ok ⟨c, [], true, none, none⟩
      else chatAfterClarity question history deps
  | _ => chatAfterClarity question history deps

/-- Outcome of `drive_service.get_document_content` for one document:
the text, or a permission / not-found / other failure (classified in
`index_all_documents` by the substring checks on `str(e)`). -/
inductive ReadOutcome where
  | ok (text : Str)
  | errPermission
  | errNotFound
  | errOther (msg : Str)
deriving DecidableEq

/-- One folder entry from `drive_service.list_documents_in_folder`,
together with the outcome reading it would produce. -/
structure GDoc where
  id : Str
  name : Str
  modified : Str
  readResult : ReadOutcome
deriving DecidableEq

/-- Running state of the `index_all_documents` document loop
(`app/main.py` lines 164-271).  `embCache` models the Python local
variable `embeddings`, which is function-scoped and therefore retains the
value from a previous loop iteration (`none` models the name being
unbound). -/
structure IngestState where
  store : VectorStore
  totalChunks : Nat
  processedDocs : Nat
  failedDocs : List (Str × Str)
  embCache : Option (List Vec)

/-- Initial loop state (lines 165-168). -/
def initIngest (dim : Nat) : IngestState :=
  ⟨VectorStore.init dim, 0, 0, [], none⟩

/-- Append one entry to `failed_docs`. -/
def addFailed (st : IngestState) (doc : GDoc) (msg : Str) : IngestState :=
  { st with failedDocs := st.failedDocs ++ [(doc.name, msg)] }

/-- The per-ingestion-call metadata dict (lines 254-258). -/
def docMeta (doc : GDoc) : Meta :=
  [("doc_id".toList, doc.id), ("doc_name".toList, doc.name),
   ("modified".toList, doc.modified)]

/-- The retry loop (lines 233-251): three attempts at
`embedding_engine.encode(chunks)`; the value of the first successful
attempt, if any. -/
def firstEmbedSuccess (encode : List Str → Nat → Option (List Vec))
    (chunks : List Str) : Option (List Vec) :=
  match encode chunks 0 with
  | some e => some e
  | none =>
      match encode chunks 1 with
      | some e => some e
      | none => encode chunks 2

/-- Lines 253-263: `vector_store.add_documents(chunks, embeddings,
metadata)` and the counter updates; a raise from `add_documents` is caught
by the per-document `except Exception` (lines 265-271) and recorded. -/
def tryAddToStore (st : IngestState) (doc : GDoc) (chunks : List Str)
    (e : List Vec) : IngestState :=
  match st.store.add_documents chunks e (some (docMeta doc)) with
  | .ok s2 =>
      { st with
        store := s2,
        totalChunks := st.totalChunks + chunks.length,
        processedDocs := st.processedDocs + 1 }
  | .error m => addFailed st doc m

/-- One iteration of the document loop of `index_all_documents`
(lines 171-271), faithful to the control flow of the source.  Note the
final-retry branch (lines 245-251): its `continue` continues the *retry*
loop (which then ends), not the document loop, so after recording the
failure execution falls through to `add_documents` with the Python
variable `embeddings` still holding the previous iteration's value (or
unbound, raising `NameError`, when no previous iteration assigned it —
that raise is caught by the per-document handler and recorded again). -/
def processDoc (split : Str → List Str)
    (encode : List Str → Nat → Option (List Vec))
    (st : IngestState) (doc : GDoc) : IngestState :=
  match doc.readResult with
  | .errPermission =>
      addFailed st doc "Permission denied - document not shared with service account".toList
  | .errNotFound => addFailed st doc "Document not found or deleted".toList
  | .errOther m => addFailed st doc m
  | .ok text =>
      if (strTrim text).length = 0 then
        addFailed st doc "Document is empty".toList
      else if (strTrim text).length < 50 then
        addFailed st doc ("Document too short (".toList ++ natStr text.length ++
          " characters, minimum 50 required)".toList)
      else
        let chunks := chunk_text split text
        if chunks.length = 0 then
          addFailed st doc "Could not create valid chunks from document".toList
        else
          match firstEmbedSuccess encode chunks with
          | some e => tryAddToStore { st with embCache := some e } doc chunks e
          | none =>
              let st1 := addFailed st doc "Failed to generate embeddings after 3 attempts".toList
              match st1.embCache with
              | none =>
                  addFailed st1 doc "NameError: name embeddings is not defined".toList
              | some e => tryAddToStore st1 doc chunks e

/-- `app/models.py` IndexResponse (the `warnings` dict carries
`failed_documents` and a message). -/
structure IndexResponse where
  message : Str
  chunks_indexed : Nat
  documents_processed : Nat
  total_documents : Option Nat
  warnings : Option (List (Str × Str) × Str)
deriving DecidableEq

/-- Lines 296-301: the warnings block, present exactly when some documents
failed. -/
def warnVal (l : List (Str × Str)) : Option (List (Str × Str) × Str) :=
  if l.length = 0 then none
  else some (l, natStr l.length ++ " document(s) failed to index".toList)

/-- Outcome of `drive_service.list_documents_in_folder`, classified as in
lines 108-146. -/
inductive ListOutcome where
  | ok (docs : List GDoc)
  | errPermission
  | errNotFound
  | errOther (msg : Str)

/-- The `index_all_documents` endpoint (`app/main.py` lines 96-319):
folder-listing error classification (403 / 404 / re-raise caught as 500),
404 on an empty folder, the per-document loop, the 400 outright failure
when `total_chunks == 0`, otherwise `save` followed by the success
response carrying a warnings block when some documents failed.  The
returned pair carries the response and the final filesystem. -/
def index_all_documents (dim : Nat) (split : Str → List Str)
    (encode : List Str → Nat → Option (List Vec)) (listing : ListOutcome)
    (path : Str) (fs : FS) : Except HErr IndexResponse × FS :=
  match listing with
  | .errPermission => (.error (.httpErr 403 "Permission Denied".toList), fs)
  | .errNotFound => (.error (.httpErr 404 "Folder Not Found".toList), fs)
  | .errOther m => (.error (.httpErr 500 m), fs)
  | .ok docs =>
      if docs.length = 0 then
        (.error (.httpErr 404 "No Documents Found".toList), fs)
      else
        let final := docs.foldl (processDoc split encode) (initIngest dim)
        if final.totalChunks = 0 then
          (.error (.httpErr 400 "No Content Indexed".toList), fs)
        else
          (.ok ⟨"Successfully indexed documents from folder".toList,
                final.totalChunks, final.processedDocs, some docs.length,
                warnVal final.failedDocs⟩,
           final.store.save path "all_docs".toList fs)

/-- The `reindex_all` endpoint (`app/main.py` lines 531-550): constructs a
fresh `VectorStore` and calls `clear()` on it (touching nothing else),
then delegates to `index_all_documents`.  Its `try` has no
`except HTTPException: raise` clause, so an `HTTPException` raised by
`index_all_documents` is caught by the bare `except Exception` and
re-raised as `HTTPException(500, f"Error re-indexing: {str(e)}")`. -/
def reindex_all (dim : Nat) (split : Str → List Str)
    (encode : List Str → Nat → Option (List Vec)) (listing : ListOutcome)
    (path : Str) (fs : FS) : Except HErr IndexResponse × FS :=
  let _cleared := (VectorStore.init dim).clear
  match index_all_documents dim split encode listing path fs with
  | (.ok r, fs2) => (.ok r, fs2)
  | (.error e, fs2) =>
      (.error (.httpErr 500 ("Error re-indexing: ".toList ++ errStr e)), fs2)

/-- Operations a client can perform on one `VectorStore` instance, for the
index-lifetime invariant. -/
inductive StoreOp where
  | addDocs (chunks : List Str) (embeddings : List Vec) (md : Option Meta)
  | clearOp

/-- Apply one operation; a raising `add_documents` leaves the store as it
was. -/
def applyOp (s : VectorStore) (op : StoreOp) : VectorStore :=
  match op with
  | .addDocs cs es md =>
      match s.add_documents cs es md with
      | .ok s2 => s2
      | .error _ => s
  | .clearOp => s.clear

/-- Run a sequence of operations from a freshly constructed store. -/
def runOps (d : Nat) (ops : List StoreOp) : VectorStore :=
  ops.foldl applyOp (VectorStore.init d)

/-- The parallel-array invariant of the Similarity Index. -/
def storeInv (s : VectorStore) : Prop :=
  s.chunks.length = s.ntotal ∧ s.chunks.length = s.metadata.length

/-- All stored entries of an index, in storage order, scored against a
query: what an unclamped exhaustive search would return before sorting. -/
def allEntries (s : VectorStore) (q : Vec) : List (Str × ℤ × Meta) :=
  (List.range s.vecs.length).map
    (fun i => (s.chunks.getD i [], dist2 q (s.vecs.getD i []), s.metadata.getD i []))

/-! Concrete fixtures used by witnesses and counterexamples. -/

/-- An empty filesystem. -/
def fsEmpty : FS := fun _ => none

/-- A metadata dict naming one document. -/
def fxMeta : Meta := [("doc_name".toList, "Doc A".toList)]

/-- A two-vector store (dimension 2) for search witnesses. -/
def fxStore : VectorStore :=
  ⟨2, 2, [[0, 3], [1, 1]],
   ["first chunk text".toList, "second chunk text".toList], [fxMeta, fxMeta], none⟩

/-- A document text of 60 identical characters (passes both the 50-character
document minimum and the chunk filter). -/
def fxTextA : Str := List.replicate 60 'a'

/-- A second 60-character document text. -/
def fxTextB : Str := List.replicate 60 'b'

/-- A splitter that returns the whole text as the single chunk. -/
def fxSplit : Str → List Str := fun t => [t]

/-- An embedding oracle: embedding `[fxTextA]` succeeds on every attempt
with the single vector `[7]`; embedding anything else raises on every
attempt. -/
def fxEncode : List Str → Nat → Option (List Vec) :=
  fun cs _ => if cs = [fxTextA] then some [[7]] else none

/-- First folder document: reads fine, embeds fine. -/
def fxDocA : GDoc := ⟨"idA".toList, "Doc A".toList, "m".toList, .ok fxTextA⟩

/-- Second folder document: reads fine, embedding raises on all three
attempts. -/
def fxDocB : GDoc := ⟨"idB".toList, "Doc B".toList, "m".toList, .ok fxTextB⟩

/-- The final loop state after ingesting `fxDocA` then `fxDocB`. -/
def fxFinalAB : IngestState :=
  [fxDocA, fxDocB].foldl (processDoc fxSplit fxEncode) (initIngest 1)

/-- A one-vector store whose artifacts get saved and then clobbered. -/
def fxStore9 : VectorStore :=
  ⟨1, 1, [[0]], ["hello world document chunk text".toList], [[]], none⟩

/-- A second store whose save overwrites the artifacts of `fxStore9`. -/
def fxStore9b : VectorStore :=
  ⟨1, 1, [[4]], ["replacement document chunk text goes here".toList], [[]], none⟩

/-- Filesystem holding the completed save of `fxStore9`. -/
def fxFs9 : FS := fxStore9.save "p".toList "all_docs".toList fsEmpty

/-- A 50-character chunk (trimmed length exactly 50). -/
def fxChunk50 : Str := List.replicate 50 'a'

/-- Chat dependencies for the clarity-check counterexample: the backend
judges the question unclear but supplies no clarification; no index has
been saved. -/
def fxDepsClarity : ChatDeps :=
  ⟨some ⟨some false, none⟩, [], fun _ => [], fun _ _ _ => [], fsEmpty,
   "p".toList, 1, 3⟩

/-- Chat dependencies where the backend judges the question unclear and
supplies a clarifying question. -/
def fxDepsUnclear : ChatDeps :=
  ⟨some ⟨some false, some "What topic do you mean?".toList⟩, [], fun _ => [],
   fun _ _ _ => [], fsEmpty, "p".toList, 1, 3⟩

/-- Chat dependencies for the rephrasing witness: one prior exchange, a
non-trivial rephrasing, a populated saved index, and an answer generator
that echoes the question it receives. -/
def fxDepsRephrase : ChatDeps :=
  ⟨none, "What are the benefits of meditation?".toList, fun _ => [0, 0],
   fun _ q _ => "answering: ".toList ++ q, fxStore.save "p".toList "all_docs".toList fsEmpty,
   "p".toList, 2, 3⟩

/-- The single prior exchange for the rephrasing witness. -/
def fxHistory : List Msg :=
  [⟨"user".toList, "tell me about meditation".toList⟩,
   ⟨"assistant".toList, "meditation is a practice".toList⟩]

/-! Helper lemmas. -/

/-- A successful `add_documents` appends the three parallel arrays and
certifies the length guard. -/
theorem add_documents_ok {s : VectorStore} {cs : List Str} {es : List Vec}
    {md : Option Meta} {s2 : VectorStore}
    (h : s.add_documents cs es md = .ok s2) :
    s2.vecs = s.vecs ++ es ∧ s2.chunks = s.chunks ++ cs ∧
    s2.metadata = s.metadata ++ cs.map (fun _ => md.getD []) ∧
    es.length = cs.length := by
  unfold VectorStore.add_documents at h
  by_cases h1 : es.length ≠ cs.length
  · rw [if_pos h1] at h
    exact absurd h (by simp)
  · rw [if_neg h1] at h
    by_cases h2 : (es.any fun v => decide (v.length ≠ s.indexDim)) = true
    · rw [if_pos h2] at h
      exact absurd h (by simp)
    · rw [if_neg h2] at h
      cases h
      exact ⟨rfl, rfl, rfl, not_not.mp h1⟩

/-- One operation preserves the parallel-array invariant. -/
theorem applyOp_inv {s : VectorStore} (op : StoreOp) (h : storeInv s) :
    storeInv (applyOp s op) := by
  cases op with
  | clearOp =>
      simp [applyOp, VectorStore.clear, storeInv, VectorStore.ntotal]
  | addDocs cs es md =>
      rcases hadd : s.add_documents cs es md with m | s2
      · simpa [applyOp, hadd] using h
      · obtain ⟨hv, hc, hm, hlen⟩ := add_documents_ok hadd
        obtain ⟨h1, h2⟩ := h
        simp only [applyOp, hadd]
        constructor
        · simp only [VectorStore.ntotal, hv, hc, List.length_append]
          simp only [VectorStore.ntotal] at h1
          omega
        · simp only [hc, hm, List.length_append, List.length_map]
          simp only [VectorStore.ntotal] at h1
          omega

/-- Folding operations preserves the invariant. -/
theorem foldl_applyOp_inv (ops : List StoreOp) :
    ∀ s : VectorStore, storeInv s → storeInv (ops.foldl applyOp s) := by
  induction ops with
  | nil => exact fun s h => h
  | cons op ops ih => exact fun s h => ih _ (applyOp_inv op h)

/-- The two artifact paths of one `store_id` are distinct. -/
theorem indexPath_ne_dataPath (path store_id : Str) :
    indexPathOf path store_id ≠ dataPathOf path store_id := by
  intro h
  have hl := congrArg List.length h
  have h12 : ("_index.faiss".toList).length = 12 := by decide
  have h9 : ("_data.pkl".toList).length = 9 := by decide
  simp only [indexPathOf, dataPathOf, List.length_append, h12, h9] at hl
  omega

/-- `search` depends only on the three parallel arrays. -/
theorem search_congr {a b : VectorStore} (q : Vec) (k : Nat)
    (h1 : a.vecs = b.vecs) (h2 : a.chunks = b.chunks)
    (h3 : a.metadata = b.metadata) : a.search q k = b.search q k := by
  cases a
  cases b
  simp only at h1 h2 h3
  subst h1
  subst h2
  subst h3
  rfl

/-! Claim theorems. -/

/-- C1.  For every sequence of `add_documents` and `clear` operations
starting from a freshly constructed `VectorStore`, the stored passage
list, the number of vectors in the FAISS index (`ntotal`), and the
metadata list have equal lengths after each operation. -/
theorem vectorStore_length_invariant (d : Nat) (ops : List StoreOp) :
    storeInv (runOps d ops) :=
  foldl_applyOp_inv ops (VectorStore.init d) (by simp [VectorStore.init, storeInv, VectorStore.ntotal])

/-- C2.  Evaluation of the ingestion loop at the failing input: document A
embeds fine; document B produces one chunk and its embedding raises on all
three attempts.  B is recorded in the failed list, but — because the
final-retry `continue` continues the retry loop rather than the document
loop — execution falls through to `add_documents` with the previous
iteration's `embeddings` value, so B's chunk IS added to the store (paired
with A's embedding) and B is counted as processed, contradicting the claim
that none of its chunks are added. -/
theorem index_all_stale_embeddings_bug :
    fxFinalAB.failedDocs =
      [("Doc B".toList, "Failed to generate embeddings after 3 attempts".toList)] ∧
    fxFinalAB.store.chunks = [fxTextA, fxTextB] ∧
    fxFinalAB.store.vecs = [[7], [7]] ∧
    fxFinalAB.processedDocs = 2 ∧
    fxFinalAB.totalChunks = 2 := by decide

/-- C5 counterexample.  A splitter-produced chunk of trimmed length
exactly 50 is NOT returned by `chunk_text` (the filter is strict:
`len(chunk.strip()) > 50`), falsifying the claim that every chunk of
trimmed length at least 50 is returned. -/
theorem chunk_text_minlen_counterexample :
    (strTrim fxChunk50).length = 50 ∧
    fxChunk50 ∈ fxSplit fxChunk50 ∧
    fxChunk50 ∉ chunk_text fxSplit fxChunk50 := by decide

/-- C5 amended.  `chunk_text` returns exactly the splitter-produced chunks
of trimmed length strictly greater than 50 (chunks of trimmed length 50 or
below are discarded), and empty or whitespace-only input yields the empty
list. -/
theorem chunk_text_filter_spec (split : Str → List Str) (text : Str) :
    ((strTrim text).length = 0 → chunk_text split text = []) ∧
    (∀ c, c ∈ chunk_text split text ↔
      ((strTrim text).length ≠ 0 ∧ c ∈ split text ∧ 50 < (strTrim c).length)) := by
  constructor
  · intro h
    simp [chunk_text, h]
  · intro c
    unfold chunk_text
    by_cases h : (strTrim text).length = 0
    · simp [h]
    · simp [h, List.mem_filter]

/-- C5 amended, witness: a 51-character chunk is kept, concretely. -/
theorem chunk_text_filter_spec_witness :
    List.replicate 51 'b' ∈ chunk_text fxSplit (List.replicate 51 'b') ∧
    (strTrim (List.replicate 51 'b')).length ≠ 0 := by
  have h := (chunk_text_filter_spec fxSplit (List.replicate 51 'b')).2 (List.replicate 51 'b')
  exact ⟨h.mpr (by decide), by decide⟩

/-- C9 counterexample.  A save interrupted between truncating the data
artifact and completing its write leaves the artifact corrupt even though
it held a previously valid artifact for the same `store_id`: `save` is not
atomic (no temp-file-and-rename). -/
theorem save_not_atomic_counterexample :
    fxFs9 (dataPathOf "p".toList "all_docs".toList) =
      some (.dataFile fxStore9.chunks (some fxStore9.metadata)) ∧
    saveInterruptedAfter fxStore9b "p".toList "all_docs".toList fxFs9 3
      (dataPathOf "p".toList "all_docs".toList) = some .truncated := by decide

/-- C9 amended.  `save` overwrites the two artifacts in place, with no
temporary file or rename: a completed save leaves both artifacts valid,
but every save passes through an intermediate state (after its third
elementary write) in which the data artifact is truncated, so an
interruption mid-write corrupts whatever previously valid artifact was
stored under the same `store_id`. -/
theorem save_in_place_overwrite (s s2 : VectorStore) (path store_id : Str) (fs : FS) :
    (s.save path store_id fs) (indexPathOf path store_id) =
      some (.indexFile s.indexDim s.vecs) ∧
    (s.save path store_id fs) (dataPathOf path store_id) =
      some (.dataFile s.chunks (some s.metadata)) ∧
    saveInterruptedAfter s2 path store_id fs 3 (dataPathOf path store_id) =
      some .truncated := by
  have hne := indexPath_ne_dataPath path store_id
  refine ⟨?_, ?_, ?_⟩
  · simp [VectorStore.save, applyWrites, saveWrites, fsUpdate, hne]
  · simp [VectorStore.save, applyWrites, saveWrites, fsUpdate]
  · simp [saveInterruptedAfter, applyWrites, saveWrites, fsUpdate]

/-- C10 counterexample.  On an empty folder listing, `index_all_documents`
raises a structured 404 while `reindex_all` catches that `HTTPException`
in its bare `except Exception` and re-raises it as a generic 500, so the
two operations do NOT produce identical responses. -/
theorem reindex_error_mismatch_counterexample :
    (index_all_documents 1 fxSplit fxEncode (.ok []) "p".toList fsEmpty).1 =
      .error (.httpErr 404 "No Documents Found".toList) ∧
    (reindex_all 1 fxSplit fxEncode (.ok []) "p".toList fsEmpty).1 =
      .error (.httpErr 500 "Error re-indexing: 404: No Documents Found".toList) ∧
    HErr.httpErr 404 "No Documents Found".toList ≠
      HErr.httpErr 500 "Error re-indexing: 404: No Documents Found".toList := by decide

/-- C4.  `save` then `load` on a freshly constructed store reproduces an
index with the same stored vectors, passages, and metadata, whose `search`
results are identical (exactly — hence within any floating-point
tolerance) to the pre-save index for every query. -/
theorem save_load_roundtrip (s : VectorStore) (path store_id : Str) (fs : FS)
    (d : Nat) :
    ∃ s2, (VectorStore.init d).load path store_id (s.save path store_id fs) =
        .ok (s2, true) ∧
      s2.vecs = s.vecs ∧ s2.chunks = s.chunks ∧ s2.metadata = s.metadata ∧
      ∀ q k, s2.search q k = s.search q k := by
  have hne := indexPath_ne_dataPath path store_id
  refine ⟨⟨d, s.indexDim, s.vecs, s.chunks, s.metadata, none⟩, ?_, rfl, rfl, rfl,
    fun q k => search_congr q k rfl rfl rfl⟩
  have hidx : (s.save path store_id fs) (indexPathOf path store_id) =
      some (.indexFile s.indexDim s.vecs) := by
    simp [VectorStore.save, applyWrites, saveWrites, fsUpdate, hne]
  have hdata : (s.save path store_id fs) (dataPathOf path store_id) =
      some (.dataFile s.chunks (some s.metadata)) := by
    simp [VectorStore.save, applyWrites, saveWrites, fsUpdate]
  unfold VectorStore.load
  rw [hidx, hdata]
  rfl

/-- C10 amended.  The `clear` inside `reindex_all` acts on a freshly
constructed local store (and is a no-op on it), the persisted state
produced by the two endpoints is always identical, and whenever
`index_all_documents` succeeds the two endpoints return identical results;
only the error responses differ (see the counterexample). -/
theorem reindex_equiv_on_success (dim : Nat) (split : Str → List Str)
    (encode : List Str → Nat → Option (List Vec)) (listing : ListOutcome)
    (path : Str) (fs : FS) :
    ((VectorStore.init dim).clear = VectorStore.init dim) ∧
    ((reindex_all dim split encode listing path fs).2 =
      (index_all_documents dim split encode listing path fs).2) ∧
    (∀ r, (index_all_documents dim split encode listing path fs).1 = .ok r →
      reindex_all dim split encode listing path fs =
        index_all_documents dim split encode listing path fs) := by
  refine ⟨rfl, ?_, ?_⟩
  · rcases hI : index_all_documents dim split encode listing path fs with ⟨res, fs2⟩
    cases res <;> simp [reindex_all, hI]
  · intro r hr
    rcases hI : index_all_documents dim split encode listing path fs with ⟨res, fs2⟩
    rw [hI] at hr
    simp only at hr
    subst hr
    simp [reindex_all, hI]

/-- C10 amended, witness: on a folder with the single well-behaved
document `fxDocA`, the two endpoints agree exactly. -/
theorem reindex_equiv_on_success_witness :
    reindex_all 1 fxSplit fxEncode (.ok [fxDocA]) "p".toList fsEmpty =
      index_all_documents 1 fxSplit fxEncode (.ok [fxDocA]) "p".toList fsEmpty :=
  (reindex_equiv_on_success 1 fxSplit fxEncode (.ok [fxDocA]) "p".toList fsEmpty).2.2
    ⟨"Successfully indexed documents from folder".toList, 1, 1, some 1, none⟩
    (by decide)

/-- `tryAddToStore` keeps `total_chunks` equal to the number of chunks
held by the store. -/
theorem tryAddToStore_totalChunks (st : IngestState) (doc : GDoc)
    (chunks : List Str) (e : List Vec)
    (h : st.totalChunks = st.store.chunks.length) :
    (tryAddToStore st doc chunks e).totalChunks =
      (tryAddToStore st doc chunks e).store.chunks.length := by
  unfold tryAddToStore
  rcases hadd : st.store.add_documents chunks e (some (docMeta doc)) with m | s2
  · simpa [addFailed] using h
  · obtain ⟨hv, hc, hm, hlen⟩ := add_documents_ok hadd
    simp [hc, List.length_append, h]

/-- Each loop iteration keeps `total_chunks` equal to the number of chunks
held by the store. -/
theorem processDoc_totalChunks (split : Str → List Str)
    (encode : List Str → Nat → Option (List Vec)) (doc : GDoc)
    (st : IngestState) (h : st.totalChunks = st.store.chunks.length) :
    (processDoc split encode st doc).totalChunks =
      (processDoc split encode st doc).store.chunks.length := by
  cases hrd : doc.readResult with
  | errPermission => simp only [processDoc, hrd]; simpa [addFailed] using h
  | errNotFound => simp only [processDoc, hrd]; simpa [addFailed] using h
  | errOther m => simp only [processDoc, hrd]; simpa [addFailed] using h
  | ok text =>
      simp only [processDoc, hrd]
      by_cases h0 : (strTrim text).length = 0
      · rw [if_pos h0]; simpa [addFailed] using h
      · rw [if_neg h0]
        by_cases h50 : (strTrim text).length < 50
        · rw [if_pos h50]; simpa [addFailed] using h
        · rw [if_neg h50]
          by_cases hch : (chunk_text split text).length = 0
          · rw [if_pos hch]; simpa [addFailed] using h
          · rw [if_neg hch]
            cases hfe : firstEmbedSuccess encode (chunk_text split text) with
            | some e => exact tryAddToStore_totalChunks _ _ _ _ (by simpa using h)
            | none =>
                have h1 : (addFailed st doc
                    "Failed to generate embeddings after 3 attempts".toList).totalChunks =
                    (addFailed st doc
                    "Failed to generate embeddings after 3 attempts".toList).store.chunks.length := by
                  simpa [addFailed] using h
                cases hec : (addFailed st doc
                    "Failed to generate embeddings after 3 attempts".toList).embCache with
                | none => simpa [addFailed] using h1
                | some e => exact tryAddToStore_totalChunks _ _ _ _ h1

/-- The loop invariant, folded over the whole document list. -/
theorem foldl_processDoc_totalChunks (split : Str → List Str)
    (encode : List Str → Nat → Option (List Vec)) (docs : List GDoc) :
    ∀ st : IngestState, st.totalChunks = st.store.chunks.length →
      (docs.foldl (processDoc split encode) st).totalChunks =
        (docs.foldl (processDoc split encode) st).store.chunks.length := by
  induction docs with
  | nil => exact fun st h => h
  | cons dc ds ih => exact fun st h => ih _ (processDoc_totalChunks _ _ dc st h)

/-- C6.  Over a non-empty folder listing, batch ingestion returns a
success response (carrying the failed documents as warnings exactly when
any failed) if and only if at least one document contributed chunks to the
store (`total_chunks`, which always equals the number of chunks the store
holds, is positive); it raises the 400 error exactly when zero documents
produced indexable content. -/
theorem index_all_partial_failure_outcome (dim : Nat) (split : Str → List Str)
    (encode : List Str → Nat → Option (List Vec)) (path : Str) (fs : FS)
    (docs : List GDoc) (hne : docs ≠ []) (final : IngestState)
    (hfinal : final = docs.foldl (processDoc split encode) (initIngest dim)) :
    final.totalChunks = final.store.chunks.length ∧
    (0 < final.totalChunks →
      index_all_documents dim split encode (.ok docs) path fs =
        (.ok ⟨"Successfully indexed documents from folder".toList,
              final.totalChunks, final.processedDocs, some docs.length,
              warnVal final.failedDocs⟩,
         final.store.save path "all_docs".toList fs)) ∧
    (final.totalChunks = 0 →
      index_all_documents dim split encode (.ok docs) path fs =
        (.error (.httpErr 400 "No Content Indexed".toList), fs)) := by
  have hlen : ¬ docs.length = 0 := by simpa [List.length_eq_zero] using hne
  refine ⟨?_, ?_, ?_⟩
  · rw [hfinal]
    exact foldl_processDoc_totalChunks _ _ docs _ rfl
  · intro hpos
    have hz : ¬ final.totalChunks = 0 := by omega
    simp only [index_all_documents]
    rw [if_neg hlen, ← hfinal, if_neg hz]
  · intro hz
    simp only [index_all_documents]
    rw [if_neg hlen, ← hfinal, if_pos hz]

/-- C6 witness: the two-document folder where A succeeds and B fails
yields the success response with a warnings block naming B. -/
theorem index_all_partial_failure_outcome_witness :
    index_all_documents 1 fxSplit fxEncode (.ok [fxDocA, fxDocB]) "p".toList fsEmpty =
      (.ok ⟨"Successfully indexed documents from folder".toList, 2, 2, some 2,
            warnVal fxFinalAB.failedDocs⟩,
       fxFinalAB.store.save "p".toList "all_docs".toList fsEmpty) :=
  (index_all_partial_failure_outcome 1 fxSplit fxEncode "p".toList fsEmpty
    [fxDocA, fxDocB] (by decide) fxFinalAB rfl).2.1 (by decide)

/-- C3.  For every well-formed index state and query: search on an empty
index returns the empty sequence for any `k`; search never returns more
than `k` results; results are ordered by ascending (squared) L2 distance
to the query; and when `k` exceeds the number of stored vectors, search
returns exactly all stored entries (a permutation of the full entry
list). -/
theorem search_spec (s : VectorStore) (q : Vec) (k : Nat)
    (hwf : s.vecs.length = s.chunks.length) :
    (s.vecs = [] → s.search q k = []) ∧
    (s.search q k).length ≤ k ∧
    List.Sorted (fun a b : Str × ℤ × Meta => a.2.1 ≤ b.2.1) (s.search q k) ∧
    (s.vecs.length < k → List.Perm (s.search q k) (allEntries s q)) := by
  by_cases h0 : s.vecs.length = 0
  · have hs : s.search q k = [] := by simp [VectorStore.search, h0]
    have ha : allEntries s q = [] := by simp [allEntries, h0]
    exact ⟨fun _ => hs, by simp [hs], by simp [hs], fun _ => by simp [hs, ha]⟩
  · have hsearch : s.search q k =
        (((List.insertionSort distLE (searchKey q s)).take (min k s.vecs.length)).filter
          (fun p => decide (p.1 < s.chunks.length))).map
          (fun p => (s.chunks.getD p.1 [], p.2, s.metadata.getD p.1 [])) := by
      simp [VectorStore.search, h0]
    have hEl : (searchKey q s).length = s.vecs.length := by simp [searchKey]
    have hperm : (List.insertionSort distLE (searchKey q s)).Perm (searchKey q s) :=
      List.perm_insertionSort distLE (searchKey q s)
    have hsl : (List.insertionSort distLE (searchKey q s)).length = s.vecs.length := by
      rw [hperm.length_eq, hEl]
    refine ⟨?_, ?_, ?_, ?_⟩
    · intro hv
      exact absurd (by rw [hv]; rfl : s.vecs.length = 0) h0
    · rw [hsearch]
      rw [List.length_map]
      have h1 : (((List.insertionSort distLE (searchKey q s)).take (min k s.vecs.length)).filter
            (fun p => decide (p.1 < s.chunks.length))).length ≤
          ((List.insertionSort distLE (searchKey q s)).take (min k s.vecs.length)).length :=
        List.length_filter_le _ _
      have h2 : ((List.insertionSort distLE (searchKey q s)).take (min k s.vecs.length)).length ≤
          min k s.vecs.length := by
        rw [List.length_take]
        exact min_le_left _ _
      have h3 : min k s.vecs.length ≤ k := min_le_left _ _
      omega
    · rw [hsearch]
      have hsorted : List.Sorted distLE (List.insertionSort distLE (searchKey q s)) :=
        List.sorted_insertionSort distLE (searchKey q s)
      have h1 : List.Pairwise distLE
          ((List.insertionSort distLE (searchKey q s)).take (min k s.vecs.length)) :=
        List.Pairwise.sublist (List.take_sublist _ _) hsorted
      have h2 : List.Pairwise distLE
          (((List.insertionSort distLE (searchKey q s)).take (min k s.vecs.length)).filter
            (fun p => decide (p.1 < s.chunks.length))) :=
        List.Pairwise.sublist (List.filter_sublist _) h1
      exact List.Pairwise.map _ (fun a b hab => hab) h2
    · intro hk
      have hmin : min k s.vecs.length = s.vecs.length := min_eq_right (le_of_lt hk)
      have htake : (List.insertionSort distLE (searchKey q s)).take (min k s.vecs.length) =
          List.insertionSort distLE (searchKey q s) := by
        apply List.take_of_length_le
        rw [hsl, hmin]
      have hfilter : (List.insertionSort distLE (searchKey q s)).filter
          (fun p => decide (p.1 < s.chunks.length)) =
          List.insertionSort distLE (searchKey q s) := by
        rw [List.filter_eq_self]
        intro a ha
        have haE : a ∈ searchKey q s := hperm.mem_iff.mp ha
        simp only [searchKey, List.mem_map, List.mem_range] at haE
        obtain ⟨i, hi, rfl⟩ := haE
        simp only [decide_eq_true_eq]
        omega
      rw [hsearch, htake, hfilter]
      refine (hperm.map _).trans ?_
      have hmm : (searchKey q s).map
          (fun p => (s.chunks.getD p.1 [], p.2, s.metadata.getD p.1 [])) =
          allEntries s q := by
        simp [searchKey, allEntries, List.map_map]
      rw [hmm]

/-- C3 witness: the concrete two-vector store, queried with `k = 5`. -/
theorem search_spec_witness :
    (fxStore.vecs = [] → fxStore.search [0, 0] 5 = []) ∧
    (fxStore.search [0, 0] 5).length ≤ 5 ∧
    List.Sorted (fun a b : Str × ℤ × Meta => a.2.1 ≤ b.2.1) (fxStore.search [0, 0] 5) ∧
    (fxStore.vecs.length < 5 →
      List.Perm (fxStore.search [0, 0] 5) (allEntries fxStore [0, 0])) :=
  search_spec fxStore [0, 0] 5 (by decide)

/-- C7 counterexample.  With empty history and the 3-character question
"hi?", the backend judges the question unclear but supplies no
clarification text: the check returns `(False, None)`, yet `chat` does NOT
short-circuit (the guard `if not is_clear and clarification:` fails) — it
proceeds to retrieval, here surfacing the 404 for an unpopulated index
instead of returning a clarification response. -/
theorem clarity_short_circuit_counterexample :
    check_query_clarity "hi?".toList [] fxDepsClarity.clarity = (false, none) ∧
    chat "hi?".toList [] fxDepsClarity = .error (.httpErr 404 notIndexedDetail) := by
  decide

/-- C7 amended.  The clarity backend is consulted only when the history is
empty and the trimmed question is shorter than 10 characters (otherwise
the result is clear regardless of the backend); a backend failure defaults
to clear; and when the check judges the question unclear AND supplies a
non-empty clarification text, `chat` short-circuits with that text as the
answer, empty sources, and the clarification flag set — independent of the
store, embedder, and generator. -/
theorem clarity_check_spec (question : Str) (deps : ChatDeps) :
    (∀ (history : List Msg) backend, history ≠ [] →
      check_query_clarity question history backend = (true, none)) ∧
    (∀ backend, 10 ≤ (strTrim question).length →
      check_query_clarity question [] backend = (true, none)) ∧
    (check_query_clarity question [] none = (true, none)) ∧
    (∀ c, check_query_clarity question [] deps.clarity = (false, some c) → c ≠ [] →
      chat question [] deps = .ok ⟨c, [], true, none, none⟩) := by
  refine ⟨?_, ?_, ?_, ?_⟩
  · intro history backend hh
    have hl : history.length ≠ 0 := by simpa [List.length_eq_zero] using hh
    simp [check_query_clarity, hl]
  · intro backend h10
    have hl : ¬ (strTrim question).length < 10 := by omega
    simp [check_query_clarity, hl]
  · by_cases h : (strTrim question).length < 10 <;> simp [check_query_clarity, h]
  · intro c hc hne
    have hcl : c.length ≠ 0 := by simpa [List.length_eq_zero] using hne
    simp only [chat, hc]
    rw [if_pos hcl]

/-- C7 amended, witness: the short question with an unclear verdict and a
supplied clarification produces the clarification response. -/
theorem clarity_check_spec_witness :
    chat "hi?".toList [] fxDepsUnclear =
      .ok ⟨"What topic do you mean?".toList, [], true, none, none⟩ :=
  (clarity_check_spec "hi?".toList fxDepsUnclear).2.2.2
    "What topic do you mean?".toList (by decide) (by decide)

/-- C8.  Whenever rephrasing produced a query that is non-empty and
differs (lowercased) from the original question, `chat` embeds the
REPHRASED query for retrieval, while `generate_answer` receives the
ORIGINAL question together with the unmodified conversation history. -/
theorem chat_rephrase_original_question
    (question : Str) (history : List Msg) (deps : ChatDeps)
    (d : Nat) (vs : List Vec) (cs : List Str) (ms : Option (List Meta))
    (store : VectorStore) (results : List (Str × ℤ × Meta))
    (hh : history ≠ [])
    (hr : deps.rephraseReply ≠ [])
    (hdiff : strLower deps.rephraseReply ≠ strLower question)
    (hidx : deps.fs (indexPathOf deps.storePath "all_docs".toList) =
      some (.indexFile d vs))
    (hdata : deps.fs (dataPathOf deps.storePath "all_docs".toList) =
      some (.dataFile cs ms))
    (hstore : store = ⟨deps.dim, d, vs, cs, ms.getD [], none⟩)
    (hresults : results = store.search (deps.encode deps.rephraseReply) deps.topK)
    (hne : results ≠ []) :
    chat question history deps =
      .ok ⟨deps.gen (results.map (fun r => r.1)) question history,
           results.map sourceLine, false, some deps.rephraseReply, none⟩ := by
  subst hstore
  subst hresults
  have hhl : history.length ≠ 0 := by simpa [List.length_eq_zero] using hh
  have hrl : deps.rephraseReply.length ≠ 0 := by simpa [List.length_eq_zero] using hr
  have hclr : check_query_clarity question history deps.clarity = (true, none) := by
    simp [check_query_clarity, hhl]
  have hchat : chat question history deps = chatAfterClarity question history deps := by
    simp only [chat, hclr]
  rw [hchat]
  unfold chatAfterClarity
  rw [if_pos hhl, if_pos (And.intro hrl hdiff)]
  unfold VectorStore.load
  rw [hidx, hdata]
  simp only [VectorStore.init]
  have hlen : ¬ (VectorStore.search ⟨deps.dim, d, vs, cs, ms.getD [], none⟩
      (deps.encode deps.rephraseReply) deps.topK).length = 0 := by
    simpa [List.length_eq_zero] using hne
  rw [if_neg hlen]

/-- C8 witness: the concrete follow-up question "benefits?" with one prior
exchange; the rephrased query is embedded for search and the generator
receives the original question. -/
theorem chat_rephrase_original_question_witness :
    chat "benefits?".toList fxHistory fxDepsRephrase =
      .ok ⟨fxDepsRephrase.gen
             ((fxStore.search (fxDepsRephrase.encode fxDepsRephrase.rephraseReply)
               fxDepsRephrase.topK).map (fun r => r.1)) "benefits?".toList fxHistory,
           (fxStore.search (fxDepsRephrase.encode fxDepsRephrase.rephraseReply)
             fxDepsRephrase.topK).map sourceLine,
           false, some fxDepsRephrase.rephraseReply, none⟩ :=
  chat_rephrase_original_question "benefits?".toList fxHistory fxDepsRephrase
    2 fxStore.vecs fxStore.chunks (some fxStore.metadata) fxStore
    (fxStore.search (fxDepsRephrase.encode fxDepsRephrase.rephraseReply) fxDepsRephrase.topK)
    (by decide) (by decide) (by decide) (by decide) (by decide) rfl rfl (by decide)
